import Mathlib

set_option maxHeartbeats 1000000
set_option maxRecDepth 4000

/-- JSON values, the shallow model of the values handled by the json module
and passed as request payloads. Numbers are modelled as integers, which covers
every numeric value this client ever builds or reads. -/
inductive JSON where
  | null : JSON
  | bool : Bool → JSON
  | num : Int → JSON
  | str : String → JSON
  | arr : List JSON → JSON
  | obj : List (String × JSON) → JSON
  deriving Repr

/-- Python exception outcomes raised by the client. Each constructor models one
raise site (or one built-in exception class), named as the spec's error
taxonomy names that site: the bare Exception raised for a type outside
_RECORDS is unsupportedRecordType, the KeyError from a failed dict subscript
is keyError (the spec calls the MX sites InvalidArgumentError), the Exception
raised in _request for a non-success status is remoteAPIError, the Exception
raised by delete_record is recordNotFound, the one raised by get_next_ip is
networkNotFound, and a json.loads failure is decodeError (the spec's
MalformedResponseError). -/
inductive PyError where
  | unsupportedRecordType : String → PyError
  | keyError : String → PyError
  | typeError : PyError
  | indexError : PyError
  | decodeError : PyError
  | remoteAPIError : JSON → PyError
  | recordNotFound : String → PyError
  | networkNotFound : String → PyError
  | nameError : PyError
  deriving Repr

/-- An HTTP request as issued by _request: the relative resource path appended
to the base URL, the JSON body (none for DELETE, which sends no data), and the
method. -/
structure Request where
  path : String
  body : Option JSON
  method : String
  deriving Repr

/-- An HTTP response as seen by _request: status code and raw body text. -/
structure Response where
  status : Nat
  content : String
  deriving Repr

/-- Python str.replace of all double-quote characters by the empty string, the
only use of str.replace in the source (res.content.replace). Written by
structural recursion so that concrete runs evaluate in the kernel. -/
def stripQuotes (s : String) : String :=
  String.mk (s.data.filter (fun c => c ≠ '"'))

/-- Character-list prefix test, the model of str.startswith. -/
def isPrefixChars : List Char → List Char → Bool
  | [], _ => true
  | _ :: _, [] => false
  | c :: cs, d :: ds => c == d && isPrefixChars cs ds

/-- Python str.startswith. -/
def pyStartsWith (s pre : String) : Bool :=
  isPrefixChars pre.data s.data

/-- Python str.upper (ASCII, which covers every method and type string the
client handles). -/
def pyToUpper (s : String) : String :=
  String.mk (s.data.map Char.toUpper)

/-- Python str.lower (ASCII). -/
def pyToLower (s : String) : String :=
  String.mk (s.data.map Char.toLower)

/-- First-match lookup in an association list: the model of reading a key from
a Python dict. -/
def jlookup : List (String × JSON) → String → Option JSON
  | [], _ => none
  | (k, v) :: kvs, key => if k = key then some v else jlookup kvs key

/-- Python truthiness of a JSON value. -/
def truthy : JSON → Bool
  | .null => false
  | .bool b => b
  | .num n => n != 0
  | .str s => !s.isEmpty
  | .arr xs => !xs.isEmpty
  | .obj kvs => !kvs.isEmpty

/-- Python x[0] on a JSON value: list indexing, string indexing, and the
exceptions raised on the other shapes. -/
def pyIndex0 : JSON → Except PyError JSON
  | .arr [] => .error .indexError
  | .arr (x :: _) => .ok x
  | .str s =>
      match s.data with
      | [] => .error .indexError
      | c :: _ => .ok (.str (String.mk [c]))
  | .obj _ => .error (.keyError ("0"))
  | _ => .error .typeError

/-- Python x[key] with a string key: dict lookup raising KeyError when the key
is absent and TypeError when x is not a dict. -/
def pySubscr (j : JSON) (key : String) : Except PyError JSON :=
  match j with
  | .obj kvs =>
      match jlookup kvs key with
      | some v => .ok v
      | none => .error (.keyError key)
  | _ => .error .typeError

/-- Drop leading JSON whitespace. -/
def skipWs : List Char → List Char
  | c :: cs => if c = ' ' ∨ c = '\n' ∨ c = '\t' ∨ c = '\r' then skipWs cs else c :: cs
  | [] => []

/-- Read a JSON string body up to the closing quote, handling the common
escapes. -/
def parseStrAux : List Char → List Char → Option (String × List Char)
  | acc, '"' :: rest => some (String.mk acc.reverse, rest)
  | acc, '\\' :: c :: rest =>
      let e : Option Char :=
        if c = '"' then some '"'
        else if c = '\\' then some '\\'
        else if c = '/' then some '/'
        else if c = 'n' then some '\n'
        else if c = 't' then some '\t'
        else if c = 'r' then some '\r'
        else none
      match e with
      | some ch => parseStrAux (ch :: acc) rest
      | none => none
  | acc, c :: rest => parseStrAux (c :: acc) rest
  | _, [] => none

/-- Split a leading run of decimal digits off a character list. -/
def takeDigits : List Char → List Char × List Char
  | c :: cs =>
      if c.isDigit then
        let p := takeDigits cs
        (c :: p.1, p.2)
      else ([], c :: cs)
  | [] => ([], [])

/-- Value of a digit run. -/
def digitsToNat (ds : List Char) : Nat :=
  ds.foldl (fun n c => 10 * n + (c.toNat - 48)) 0

mutual

/-- Fuel-indexed recursive-descent JSON reader, the model of json.loads.
Numbers are read as (optionally negated) integers. -/
def parseVal : Nat → List Char → Option (JSON × List Char)
  | 0, _ => none
  | fuel + 1, s =>
      match skipWs s with
      | '"' :: rest =>
          match parseStrAux [] rest with
          | some p => some (JSON.str p.1, p.2)
          | none => none
      | 't' :: 'r' :: 'u' :: 'e' :: rest => some (JSON.bool true, rest)
      | 'f' :: 'a' :: 'l' :: 's' :: 'e' :: rest => some (JSON.bool false, rest)
      | 'n' :: 'u' :: 'l' :: 'l' :: rest => some (JSON.null, rest)
      | '[' :: rest =>
          match skipWs rest with
          | ']' :: rest2 => some (JSON.arr [], rest2)
          | s2 =>
              match parseElems fuel s2 with
              | some p => some (JSON.arr p.1, p.2)
              | none => none
      | '\x7b' :: rest =>
          match skipWs rest with
          | '\x7d' :: rest2 => some (JSON.obj [], rest2)
          | s2 =>
              match parseMembers fuel s2 with
              | some p => some (JSON.obj p.1, p.2)
              | none => none
      | '-' :: rest =>
          match takeDigits rest with
          | ([], _) => none
          | (ds, rest2) => some (JSON.num (-(digitsToNat ds : Int)), rest2)
      | s2 =>
          match takeDigits s2 with
          | ([], _) => none
          | (ds, rest2) => some (JSON.num (digitsToNat ds : Int), rest2)

/-- Comma-separated array elements up to the closing bracket. -/
def parseElems : Nat → List Char → Option (List JSON × List Char)
  | 0, _ => none
  | fuel + 1, s =>
      match parseVal fuel s with
      | none => none
      | some (v, rest) =>
          match skipWs rest with
          | ',' :: rest2 =>
              match parseElems fuel rest2 with
              | some p => some (v :: p.1, p.2)
              | none => none
          | ']' :: rest2 => some ([v], rest2)
          | _ => none

/-- Comma-separated object members up to the closing brace. -/
def parseMembers : Nat → List Char → Option (List (String × JSON) × List Char)
  | 0, _ => none
  | fuel + 1, s =>
      match skipWs s with
      | '"' :: rest =>
          match parseStrAux [] rest with
          | none => none
          | some (k, rest2) =>
              match skipWs rest2 with
              | ':' :: rest3 =>
                  match parseVal fuel rest3 with
                  | none => none
                  | some (v, rest4) =>
                      match skipWs rest4 with
                      | ',' :: rest5 =>
                          match parseMembers fuel rest5 with
                          | some p => some ((k, v) :: p.1, p.2)
                          | none => none
                      | '\x7d' :: rest5 => some ([(k, v)], rest5)
                      | _ => none
              | _ => none
      | _ => none

end

/-- Model of json.loads: parse one value and require only whitespace to
follow; none models the ValueError raised on malformed input. -/
def json_loads (s : String) : Option JSON :=
  match parseVal (s.length + 1) s.data with
  | some (j, rest) => if (skipWs rest).isEmpty then some j else none
  | none => none

/-- The supported record types, self._RECORDS. -/
def _RECORDS : List String :=
  [("A"), ("AAAA"), ("CNAME"), ("HOST"), ("MX"), ("PTR"), ("SRV"), ("TXT")]

/-- The HTTP request dispatched by _request for the given method: GET and POST
send the JSON-serialized payload as the body, DELETE sends none. An
unrecognized method leaves res unbound in the source (none here). -/
def methodRequest (obj : String) (req : JSON) (method : String) : Option Request :=
  if pyToUpper method = ("GET") then some ⟨obj, some req, ("GET")⟩
  else if pyToUpper method = ("POST") then some ⟨obj, some req, ("POST")⟩
  else if pyToUpper method = ("DELETE") then some ⟨obj, none, ("DELETE")⟩
  else none

/-- Interpretation of an HTTP response by _request: on status 200 or 201,
return True when the body with quote characters stripped starts with the
request path, otherwise return the JSON-decoded body; on any other status,
raise with the text field of the JSON-decoded body. -/
def handleResponse (obj : String) (res : Response) : Except PyError JSON :=
  if res.status = 200 ∨ res.status = 201 then
    if pyStartsWith (stripQuotes res.content) obj then
      .ok (.bool true)
    else
      match json_loads res.content with
      | some j => .ok j
      | none => .error .decodeError
  else
    match json_loads res.content with
    | some j =>
        match pySubscr j ("text") with
        | .ok t => .error (.remoteAPIError t)
        | .error e => .error e
    | none => .error .decodeError

/-- The core request operation Infoblox._request, parameterized by the remote
server T. Returns the outcome together with the list of HTTP requests issued
(so that the no-network-call properties are statable). -/
def _request (T : Request → Response) (obj : String) (req : JSON) (method : String) :
    Except PyError JSON × List Request :=
  match methodRequest obj req method with
  | none => (.error .nameError, [])
  | some r => (handleResponse obj (T r), [r])

/-- get_record: validate the record type against _RECORDS, then GET
record:{type} with payload with the name key. -/
def get_record (T : Request → Response) (record record_type : String) :
    Except PyError JSON × List Request :=
  if record_type ∈ _RECORDS then
    _request T (("record:") ++ record_type) (.obj [(("name"), .str record)]) ("GET")
  else
    (.error (.unsupportedRecordType record_type), [])

/-- The _options table of create_record before the MX extension: the payload
shape per (uppercase) record type. -/
def baseOptions (record : String) (data : JSON) : List (String × JSON) :=
  [(("A"), .obj [(("name"), .str record), (("ipv4addr"), data)]),
   (("AAAA"), .obj [(("name"), .str record), (("ipv6addr"), data)]),
   (("CNAME"), .obj [(("name"), .str record), (("canonical"), data)]),
   (("HOST"), .obj [(("name"), .str record),
                    (("ipv4addrs"), .arr [.obj [(("ipv4addr"), data)]])]),
   (("PTR"), .obj [(("name"), .str record), (("ipv4addr"), data),
                   (("ptrdname"), .str record)]),
   (("TXT"), .obj [(("name"), .str record), (("text"), data)])]

/-- The MX extension of _options, run whenever data is a dict: the two key
subscripts are evaluated first (raising KeyError when absent), then the MX row
is added. When data is not a dict the table is left as it is. -/
def mxOptions (record : String) (data : JSON) : Except PyError (List (String × JSON)) :=
  match data with
  | .obj kvs =>
      match pySubscr (.obj kvs) ("mail_exchanger") with
      | .error e => .error e
      | .ok m =>
          match pySubscr (.obj kvs) ("preference") with
          | .error e => .error e
          | .ok p =>
              .ok (baseOptions record (.obj kvs) ++
                   [(("MX"), .obj [(("name"), .str record), (("mail_exchanger"), m),
                                   (("preference"), p)])])
  | _ => .ok (baseOptions record data)

/-- create_record: build _options (extending it with the MX row when data is a
dict), validate the type against _RECORDS, then POST _options[type.upper()] to
record:{type.lower()}. -/
def create_record (T : Request → Response) (record_type record : String) (data : JSON) :
    Except PyError JSON × List Request :=
  match mxOptions record data with
  | .error e => (.error e, [])
  | .ok opts =>
      if record_type ∈ _RECORDS then
        match jlookup opts (pyToUpper record_type) with
        | some payload => _request T (("record:") ++ pyToLower record_type) payload ("POST")
        | none => (.error (.keyError (pyToUpper record_type)), [])
      else
        (.error (.unsupportedRecordType record_type), [])

/-- delete_record: resolve the reference via get_record; when the result is
truthy, DELETE the first result's _ref used verbatim as the path, otherwise
raise the unable-to-delete error. -/
def delete_record (T : Request → Response) (record record_type : String) :
    Except PyError JSON × List Request :=
  match get_record T record record_type with
  | (.error e, log) => (.error e, log)
  | (.ok ref, log) =>
      if truthy ref then
        match pyIndex0 ref with
        | .error e => (.error e, log)
        | .ok first =>
            match pySubscr first ("_ref") with
            | .error e => (.error e, log)
            | .ok (.str r) =>
                let p := _request T r (.obj []) ("DELETE")
                (p.1, log ++ p.2)
            | .ok _ => (.error .typeError, log)
      else
        (.error (.recordNotFound record), log)

/-- get_network: GET network with the network payload. -/
def get_network (T : Request → Response) (network : String) :
    Except PyError JSON × List Request :=
  _request T ("network") (.obj [(("network"), .str network)]) ("GET")

/-- get_next_ip: index the get_network result at 0 (the IndexError of an empty
result is caught and re-raised as the unable-to-retrieve error), then POST the
num payload to the _ref with the next_available_ip function suffix. -/
def get_next_ip (T : Request → Response) (network : String) (n : Int) :
    Except PyError JSON × List Request :=
  match get_network T network with
  | (.error e, log) => (.error e, log)
  | (.ok res0, log) =>
      match pyIndex0 res0 with
      | .error .indexError => (.error (.networkNotFound network), log)
      | .error e => (.error e, log)
      | .ok first =>
          match pySubscr first ("_ref") with
          | .error e => (.error e, log)
          | .ok (.str r) =>
              let p := _request T (r ++ ("?_function=next_available_ip"))
                         (.obj [(("num"), .num n)]) ("POST")
              (p.1, log ++ p.2)
          | .ok _ => (.error .typeError, log)

/-- A store of Python dict objects, addressed by numbers: the part of the
state needed to talk about the dict allocation and the single dict.update in
create_network. -/
structure Store where
  objs : List (Nat × List (String × JSON))
  next : Nat
  deriving Repr

/-- Content of the object at an address. -/
def Store.get (σ : Store) (a : Nat) : Option (List (String × JSON)) :=
  (σ.objs.find? (fun e => e.1 == a)).map (fun e => e.2)

/-- Overwrite the object at an address. -/
def Store.set (σ : Store) (a : Nat) (d : List (String × JSON)) : Store :=
  ⟨σ.objs.map (fun e => if e.1 == a then (a, d) else e), σ.next⟩

/-- Allocate a fresh object. -/
def Store.alloc (σ : Store) (d : List (String × JSON)) : Nat × Store :=
  (σ.next, ⟨(σ.next, d) :: σ.objs, σ.next + 1⟩)

/-- Python d[k] = v on a dict: replace in place when the key exists, append
otherwise. -/
def dictSet (d : List (String × JSON)) (k : String) (v : JSON) : List (String × JSON) :=
  if d.any (fun e => e.1 == k) then
    d.map (fun e => if e.1 == k then (k, v) else e)
  else
    d ++ [(k, v)]

/-- Python d.update(e). -/
def dictUpdate (d e : List (String × JSON)) : List (String × JSON) :=
  e.foldl (fun acc kv => dictSet acc kv.1 kv.2) d

/-- The opts literal allocated inside create_network before the update. -/
def gridDefaults : List (String × JSON) :=
  [(("use_option"), .bool true), (("vendor_class"), .str ("DHCP"))]

/-- create_network over the dict store: optAddr is the address of the caller's
options dict (the shared default object when the argument was omitted), grid
is the grid argument (False by default). When options is truthy, a fresh opts
dict is allocated with the defaults and mutated by opts.update(options); the
data payload is then built from the network string, the caller's options
object (read from the store at serialization time) and the grid value.
Returns the request outcome, the issued requests, and the final store. -/
def create_network (T : Request → Response) (network : String) (grid : JSON)
    (optAddr : Nat) (σ : Store) : (Except PyError JSON × List Request) × Store :=
  match σ.get optAddr with
  | none => ((.error .nameError, []), σ)
  | some options =>
      let σ1 : Store :=
        if truthy (.obj options) then
          let al := σ.alloc gridDefaults
          al.2.set al.1 (dictUpdate gridDefaults options)
        else σ
      let optionsNow : List (String × JSON) := (σ1.get optAddr).getD options
      let data : JSON :=
        if truthy grid then
          if truthy (.obj options) then
            .obj [(("network"), .str network),
                  (("options"), .arr [.obj optionsNow]),
                  (("members"), .arr [.obj [(("_struct"), .str ("dhcpmember")),
                                            (("ipv4addr"), grid)]])]
          else
            .obj [(("network"), .str network),
                  (("members"), .arr [.obj [(("_struct"), .str ("dhcpmember")),
                                            (("ipv4addr"), grid)]])]
        else
          if truthy (.obj options) then
            .obj [(("network"), .str network), (("options"), .arr [.obj optionsNow])]
          else
            .obj [(("network"), .str network)]
      (_request T ("network") data ("POST"), σ1)

/-- Payload shapes per record type exactly as the spec's section 4.1 table
states them (the spec side of the create_record refinement). The table has no
SRV row, and its MX row requires data to be a mapping holding both keys. -/
def specCreatePayload (t name : String) (data : JSON) : Option JSON :=
  if t = ("A") then some (.obj [(("name"), .str name), (("ipv4addr"), data)])
  else if t = ("AAAA") then some (.obj [(("name"), .str name), (("ipv6addr"), data)])
  else if t = ("CNAME") then some (.obj [(("name"), .str name), (("canonical"), data)])
  else if t = ("HOST") then
    some (.obj [(("name"), .str name), (("ipv4addrs"), .arr [.obj [(("ipv4addr"), data)]])])
  else if t = ("PTR") then
    some (.obj [(("name"), .str name), (("ipv4addr"), data), (("ptrdname"), .str name)])
  else if t = ("TXT") then some (.obj [(("name"), .str name), (("text"), data)])
  else if t = ("MX") then
    match data with
    | .obj kvs =>
        match jlookup kvs ("mail_exchanger"), jlookup kvs ("preference") with
        | some m, some p =>
            some (.obj [(("name"), .str name), (("mail_exchanger"), m), (("preference"), p)])
        | _, _ => none
    | _ => none
  else none

/-- data survives the MX pre-extraction of create_record: it is either not a
dict, or a dict holding both MX keys. -/
def mxReady : JSON → Bool
  | .obj kvs => (jlookup kvs ("mail_exchanger")).isSome && (jlookup kvs ("preference")).isSome
  | _ => true

/-- A concrete remote that answers every request with 200 and an empty JSON
list body. -/
def Tok : Request → Response :=
  fun _ => ⟨200, ("[]")⟩

/-- A concrete remote that echoes the quoted request path back with 200. -/
def Techo : Request → Response :=
  fun r => ⟨200, ("\"") ++ r.path ++ ("\"")⟩

/-- A concrete remote that answers 404 with a JSON error body. -/
def Tfail : Request → Response :=
  fun _ => ⟨404, ("\x7b\"text\": \"not found\"\x7d")⟩

/-- A concrete remote for the delete flow: the GET lookup finds one record,
the DELETE echoes the reference path back. -/
def Tdel : Request → Response :=
  fun r =>
    if r.method = ("GET") then ⟨200, ("[\x7b\"_ref\": \"record:host/abc\"\x7d]")⟩
    else ⟨200, ("\"record:host/abc\"")⟩

/-- A concrete remote for the next-ip flow: the GET lookup finds one network,
the POST answers with an ips body. -/
def Tnet : Request → Response :=
  fun r =>
    if r.method = ("GET") then ⟨200, ("[\x7b\"_ref\": \"network/xyz\"\x7d]")⟩
    else ⟨200, ("\x7b\"ips\": [\"10.224.253.2\"]\x7d")⟩

/-- The value of _options after the MX extension, when the extension does not
raise: the base table plus the MX row whenever data is a dict with both keys. -/
def fullOptions (record : String) (data : JSON) : List (String × JSON) :=
  match data with
  | .obj kvs =>
      match jlookup kvs ("mail_exchanger"), jlookup kvs ("preference") with
      | some m, some pr =>
          baseOptions record (.obj kvs) ++
            [(("MX"), .obj [(("name"), .str record), (("mail_exchanger"), m),
                            (("preference"), pr)])]
      | _, _ => baseOptions record (.obj kvs)
  | _ => baseOptions record data

/-- The data payload create_network builds, written as one function of the
two branch conditions (grid truthiness, options emptiness); proved equal to
the source's four branches below. -/
def cnData (network : String) (grid : JSON) (d : List (String × JSON)) : JSON :=
  if truthy grid then
    if d.isEmpty then
      .obj [(("network"), .str network),
            (("members"), .arr [.obj [(("_struct"), .str ("dhcpmember")),
                                      (("ipv4addr"), grid)]])]
    else
      .obj [(("network"), .str network),
            (("options"), .arr [.obj d]),
            (("members"), .arr [.obj [(("_struct"), .str ("dhcpmember")),
                                      (("ipv4addr"), grid)]])]
  else
    if d.isEmpty then .obj [(("network"), .str network)]
    else .obj [(("network"), .str network), (("options"), .arr [.obj d])]

lemma mxOptions_ready (record : String) (data : JSON) (h : mxReady data = true) :
    mxOptions record data = .ok (fullOptions record data) := by
  cases data with
  | obj kvs =>
      simp [mxReady] at h
      obtain ⟨hm, hp⟩ := h
      obtain ⟨m, hm⟩ := Option.isSome_iff_exists.mp hm
      obtain ⟨pr, hp⟩ := Option.isSome_iff_exists.mp hp
      simp [mxOptions, fullOptions, pySubscr, hm, hp]
  | null => rfl
  | bool b => rfl
  | num n => rfl
  | str s => rfl
  | arr xs => rfl

lemma methodRequest_GET (obj : String) (req : JSON) :
    methodRequest obj req ("GET") = some ⟨obj, some req, ("GET")⟩ := rfl

lemma methodRequest_POST (obj : String) (req : JSON) :
    methodRequest obj req ("POST") = some ⟨obj, some req, ("POST")⟩ := rfl

lemma methodRequest_DELETE (obj : String) (req : JSON) :
    methodRequest obj req ("DELETE") = some ⟨obj, none, ("DELETE")⟩ := rfl

lemma create_record_req (T : Request → Response) (t record : String) (data : JSON)
    (opts : List (String × JSON)) (payload : JSON)
    (hmo : mxOptions record data = .ok opts)
    (hmem : t ∈ _RECORDS)
    (hlook : jlookup opts (pyToUpper t) = some payload) :
    create_record T t record data =
      (handleResponse (("record:") ++ pyToLower t)
        (T ⟨("record:") ++ pyToLower t, some payload, ("POST")⟩),
       [⟨("record:") ++ pyToLower t, some payload, ("POST")⟩]) := by
  unfold create_record
  rw [hmo]
  simp only [hmem, if_true, hlook]
  unfold _request
  rw [methodRequest_POST]

lemma unsupported_behavior (T : Request → Response) (t record : String) (data : JSON)
    (h : t ∉ _RECORDS) :
    get_record T record t = (.error (.unsupportedRecordType t), []) ∧
    (mxReady data = true →
      create_record T t record data = (.error (.unsupportedRecordType t), [])) ∧
    (create_record T t record data).2 = [] := by
  refine ⟨?_, ?_, ?_⟩
  · unfold get_record
    rw [if_neg h]
  · intro hready
    unfold create_record
    rw [mxOptions_ready record data hready]
    simp [h]
  · cases hmo : mxOptions record data with
    | error e => simp [create_record, hmo]
    | ok opts => simp [create_record, hmo, h]

lemma jlookup_append_left (l l' : List (String × JSON)) (k : String) (v : JSON)
    (h : jlookup l k = some v) : jlookup (l ++ l') k = some v := by
  induction l with
  | nil => simp [jlookup] at h
  | cons kv rest ih =>
      obtain ⟨a, b⟩ := kv
      simp only [List.cons_append, jlookup] at h ⊢
      by_cases hk : a = k
      · rw [if_pos hk] at h ⊢
        exact h
      · rw [if_neg hk] at h ⊢
        exact ih h

lemma jlookup_fullOptions (record : String) (data : JSON) (key : String) (v : JSON)
    (h : jlookup (baseOptions record data) key = some v) :
    jlookup (fullOptions record data) key = some v := by
  cases data with
  | obj kvs =>
      cases h1 : jlookup kvs ("mail_exchanger") with
      | none => simp [fullOptions, h1]; exact h
      | some m =>
          cases h2 : jlookup kvs ("preference") with
          | none => simp [fullOptions, h1, h2]; exact h
          | some pr =>
              simp [fullOptions, h1, h2]
              exact jlookup_append_left _ _ _ _ h
  | null => exact h
  | bool b => exact h
  | num n => exact h
  | str s => exact h
  | arr xs => exact h

lemma jlookup_fullOptions_MX (record : String) (kvs : List (String × JSON)) (m pr : JSON)
    (hm : jlookup kvs ("mail_exchanger") = some m)
    (hp : jlookup kvs ("preference") = some pr) :
    jlookup (fullOptions record (.obj kvs)) ("MX") =
      some (.obj [(("name"), .str record), (("mail_exchanger"), m), (("preference"), pr)]) := by
  have h : fullOptions record (.obj kvs) =
      baseOptions record (.obj kvs) ++
        [(("MX"), .obj [(("name"), .str record), (("mail_exchanger"), m),
                        (("preference"), pr)])] := by
    simp [fullOptions, hm, hp]
  rw [h]
  rfl

/-- C1 (amended): for every record type with a row in the spec's payload
table (A, AAAA, CNAME, HOST, PTR, TXT unconditionally; MX when data is a
mapping with both keys) and every name and data surviving the MX
pre-extraction, create_record builds exactly the table's payload for that
type and POSTs it to the path record: followed by the lower-cased type. -/
theorem create_record_spec_table (T : Request → Response) (t name : String) (data p : JSON)
    (hmx : mxReady data = true) (hspec : specCreatePayload t name data = some p) :
    create_record T t name data =
      (handleResponse (("record:") ++ pyToLower t)
        (T ⟨("record:") ++ pyToLower t, some p, ("POST")⟩),
       [⟨("record:") ++ pyToLower t, some p, ("POST")⟩]) := by
  unfold specCreatePayload at hspec
  by_cases h1 : t = ("A")
  · subst h1
    rw [if_pos rfl] at hspec
    obtain rfl := Option.some.inj hspec
    exact create_record_req T _ name data _ _ (mxOptions_ready name data hmx) (by decide)
      (jlookup_fullOptions name data _ _ rfl)
  · rw [if_neg h1] at hspec
    by_cases h2 : t = ("AAAA")
    · subst h2
      rw [if_pos rfl] at hspec
      obtain rfl := Option.some.inj hspec
      exact create_record_req T _ name data _ _ (mxOptions_ready name data hmx) (by decide)
        (jlookup_fullOptions name data _ _ rfl)
    · rw [if_neg h2] at hspec
      by_cases h3 : t = ("CNAME")
      · subst h3
        rw [if_pos rfl] at hspec
        obtain rfl := Option.some.inj hspec
        exact create_record_req T _ name data _ _ (mxOptions_ready name data hmx) (by decide)
          (jlookup_fullOptions name data _ _ rfl)
      · rw [if_neg h3] at hspec
        by_cases h4 : t = ("HOST")
        · subst h4
          rw [if_pos rfl] at hspec
          obtain rfl := Option.some.inj hspec
          exact create_record_req T _ name data _ _ (mxOptions_ready name data hmx) (by decide)
            (jlookup_fullOptions name data _ _ rfl)
        · rw [if_neg h4] at hspec
          by_cases h5 : t = ("PTR")
          · subst h5
            rw [if_pos rfl] at hspec
            obtain rfl := Option.some.inj hspec
            exact create_record_req T _ name data _ _ (mxOptions_ready name data hmx) (by decide)
              (jlookup_fullOptions name data _ _ rfl)
          · rw [if_neg h5] at hspec
            by_cases h6 : t = ("TXT")
            · subst h6
              rw [if_pos rfl] at hspec
              obtain rfl := Option.some.inj hspec
              exact create_record_req T _ name data _ _ (mxOptions_ready name data hmx) (by decide)
                (jlookup_fullOptions name data _ _ rfl)
            · rw [if_neg h6] at hspec
              by_cases h7 : t = ("MX")
              · subst h7
                rw [if_pos rfl] at hspec
                cases data with
                | obj kvs =>
                    have hmx2 := hmx
                    simp only [mxReady, Bool.and_eq_true, Option.isSome_iff_exists] at hmx2
                    obtain ⟨⟨m, hm⟩, ⟨pr, hp⟩⟩ := hmx2
                    simp only [hm, hp] at hspec
                    obtain rfl := Option.some.inj hspec
                    exact create_record_req T _ name _ _ _
                      (mxOptions_ready name _ hmx) (by decide)
                      (jlookup_fullOptions_MX name kvs m pr hm hp)
                | null => cases hspec
                | bool b => cases hspec
                | num n => cases hspec
                | str s => cases hspec
                | arr xs => cases hspec
              · rw [if_neg h7] at hspec
                cases hspec

/-- C1 counterexample: SRV is in the supported set, yet create_record with an
SRV type raises a KeyError from the _options lookup and issues no POST at
all, against the claim that every supported type is POSTed with a table
payload. -/
theorem create_record_srv_counterexample :
    create_record Tok ("SRV") ("myhost.example.com") (.str ("10.0.0.1")) =
      (.error (.keyError ("SRV")), []) := rfl

/-- C1 witness: the amended theorem applied at type A with concrete inputs. -/
theorem create_record_spec_table_witness :
    mxReady (.str ("10.0.0.1")) = true ∧
    specCreatePayload ("A") ("myhost.example.com") (.str ("10.0.0.1")) =
      some (.obj [(("name"), .str ("myhost.example.com")),
                  (("ipv4addr"), .str ("10.0.0.1"))]) ∧
    create_record Tok ("A") ("myhost.example.com") (.str ("10.0.0.1")) =
      (handleResponse (("record:") ++ pyToLower ("A"))
        (Tok ⟨("record:") ++ pyToLower ("A"),
              some (.obj [(("name"), .str ("myhost.example.com")),
                          (("ipv4addr"), .str ("10.0.0.1"))]), ("POST")⟩),
       [⟨("record:") ++ pyToLower ("A"),
         some (.obj [(("name"), .str ("myhost.example.com")),
                     (("ipv4addr"), .str ("10.0.0.1"))]), ("POST")⟩]) :=
  ⟨rfl, rfl,
   create_record_spec_table Tok ("A") ("myhost.example.com") (.str ("10.0.0.1")) _ rfl rfl⟩

lemma _request_eq (T : Request → Response) (obj : String) (req : JSON)
    (method : String) (r : Request)
    (h : methodRequest obj req method = some r) :
    _request T obj req method = (handleResponse obj (T r), [r]) := by
  unfold _request
  rw [h]

lemma _request_GET (T : Request → Response) (obj : String) (req : JSON) :
    _request T obj req ("GET") =
      (handleResponse obj (T ⟨obj, some req, ("GET")⟩), [⟨obj, some req, ("GET")⟩]) :=
  _request_eq T obj req ("GET") _ (methodRequest_GET obj req)

lemma _request_POST (T : Request → Response) (obj : String) (req : JSON) :
    _request T obj req ("POST") =
      (handleResponse obj (T ⟨obj, some req, ("POST")⟩), [⟨obj, some req, ("POST")⟩]) :=
  _request_eq T obj req ("POST") _ (methodRequest_POST obj req)

lemma _request_DELETE (T : Request → Response) (obj : String) (req : JSON) :
    _request T obj req ("DELETE") =
      (handleResponse obj (T ⟨obj, none, ("DELETE")⟩), [⟨obj, none, ("DELETE")⟩]) :=
  _request_eq T obj req ("DELETE") _ (methodRequest_DELETE obj req)

lemma get_record_log (T : Request → Response) (record rtype : String)
    (res : Except PyError JSON) (log : List Request)
    (h : get_record T record rtype = (res, log)) (hok : res.isOk = true) :
    log = [⟨("record:") ++ rtype, some (.obj [(("name"), .str record)]), ("GET")⟩] := by
  by_cases hm : rtype ∈ _RECORDS
  · unfold get_record at h
    rw [if_pos hm, _request_GET] at h
    exact (Prod.mk.injEq _ _ _ _ ▸ h).2.symm
  · unfold get_record at h
    rw [if_neg hm] at h
    obtain ⟨h1, h2⟩ := Prod.mk.injEq _ _ _ _ ▸ h
    subst h1
    simp [Except.isOk, Except.toBool] at hok

/-- C2: for every request issued by _request, when the response status is 200
or 201 and the body with quote characters stripped starts with the request
path, the operation returns True; when the status is 200 or 201 and the body
does not start with the path, it returns the JSON-decoded body. -/
theorem request_success_behavior (T : Request → Response) (obj : String) (req : JSON)
    (method : String) (r : Request)
    (hr : methodRequest obj req method = some r)
    (hs : (T r).status = 200 ∨ (T r).status = 201) :
    (pyStartsWith (stripQuotes (T r).content) obj = true →
        _request T obj req method = (.ok (.bool true), [r])) ∧
    (∀ j, pyStartsWith (stripQuotes (T r).content) obj = false →
        json_loads (T r).content = some j →
        _request T obj req method = (.ok j, [r])) := by
  constructor
  · intro hsw
    rw [_request_eq T obj req method r hr]
    unfold handleResponse
    rw [if_pos hs, if_pos hsw]
  · intro j hsw hj
    rw [_request_eq T obj req method r hr]
    unfold handleResponse
    rw [if_pos hs, if_neg (by simp [hsw]), hj]

/-- C2 witness: the theorem applied to a path-echoing remote (bare
confirmation, True) and to a remote answering a JSON list body. -/
theorem request_success_behavior_witness :
    methodRequest ("record:A") (.obj []) ("GET") =
      some ⟨("record:A"), some (.obj []), ("GET")⟩ ∧
    _request Techo ("record:A") (.obj []) ("GET") =
      (.ok (.bool true), [⟨("record:A"), some (.obj []), ("GET")⟩]) ∧
    _request Tok ("record:A") (.obj []) ("GET") =
      (.ok (.arr []), [⟨("record:A"), some (.obj []), ("GET")⟩]) :=
  ⟨rfl,
   (request_success_behavior Techo ("record:A") (.obj []) ("GET")
      ⟨("record:A"), some (.obj []), ("GET")⟩ rfl (Or.inl rfl)).1 rfl,
   (request_success_behavior Tok ("record:A") (.obj []) ("GET")
      ⟨("record:A"), some (.obj []), ("GET")⟩ rfl (Or.inl rfl)).2 (.arr []) rfl rfl⟩

/-- C3: for every request issued by _request, when the response status is
neither 200 nor 201 the operation raises (never returns a value), and when
the body JSON-decodes to an object with a text field the raised error is the
remote-API error carrying that field's value. -/
theorem request_failure_behavior (T : Request → Response) (obj : String) (req : JSON)
    (method : String) (r : Request)
    (hr : methodRequest obj req method = some r)
    (hs : ¬ ((T r).status = 200 ∨ (T r).status = 201)) :
    (∃ e, _request T obj req method = (.error e, [r])) ∧
    (∀ j t, json_loads (T r).content = some j → pySubscr j ("text") = .ok t →
        _request T obj req method = (.error (.remoteAPIError t), [r])) := by
  constructor
  · rw [_request_eq T obj req method r hr]
    unfold handleResponse
    rw [if_neg hs]
    cases hj : json_loads (T r).content with
    | none => exact ⟨.decodeError, rfl⟩
    | some j =>
        cases ht : pySubscr j ("text") with
        | error e => exact ⟨e, by simp only [ht]⟩
        | ok t => exact ⟨.remoteAPIError t, by simp only [ht]⟩
  · intro j t hj ht
    rw [_request_eq T obj req method r hr]
    unfold handleResponse
    rw [if_neg hs, hj]
    simp only [ht]

/-- C3 witness: the theorem applied to a remote answering 404 with a JSON
body whose text field is the message. -/
theorem request_failure_behavior_witness :
    (¬ ((404 : Nat) = 200 ∨ (404 : Nat) = 201)) ∧
    _request Tfail ("network") (.obj []) ("GET") =
      (.error (.remoteAPIError (.str ("not found"))),
       [⟨("network"), some (.obj []), ("GET")⟩]) :=
  ⟨by decide,
   (request_failure_behavior Tfail ("network") (.obj []) ("GET")
      ⟨("network"), some (.obj []), ("GET")⟩ rfl (by decide)).2
     (.obj [(("text"), .str ("not found"))]) (.str ("not found")) rfl rfl⟩

/-- C4 (amended): for every record type outside the supported set, get_record
always fails with the unsupported-record-type error, create_record fails with
that error whenever data survives the MX pre-extraction (is not a mapping
lacking the MX keys), and neither ever performs a network call. -/
theorem unsupported_type_no_call (T : Request → Response) (t record : String) (data : JSON)
    (h : t ∉ _RECORDS) :
    get_record T record t = (.error (.unsupportedRecordType t), []) ∧
    (mxReady data = true →
      create_record T t record data = (.error (.unsupportedRecordType t), [])) ∧
    (create_record T t record data).2 = [] :=
  unsupported_behavior T t record data h

/-- C4 counterexample: with an unsupported type and a mapping lacking the MX
keys, create_record raises the KeyError of the MX pre-extraction, not the
unsupported-record-type error (though still with no network call). -/
theorem unsupported_type_counterexample :
    create_record Tok ("FOO") ("host.example.com") (.obj [(("a"), .num 1)]) =
      (.error (.keyError ("mail_exchanger")), []) := rfl

/-- C4 witness: the amended theorem applied at a concrete unsupported type. -/
theorem unsupported_type_no_call_witness :
    (("FOO") ∉ _RECORDS) ∧
    (get_record Tok ("host.example.com") ("FOO") =
      (.error (.unsupportedRecordType ("FOO")), []) ∧
    (mxReady (.str ("10.0.0.1")) = true →
      create_record Tok ("FOO") ("host.example.com") (.str ("10.0.0.1")) =
        (.error (.unsupportedRecordType ("FOO")), [])) ∧
    (create_record Tok ("FOO") ("host.example.com") (.str ("10.0.0.1"))).2 = []) :=
  ⟨by decide,
   unsupported_type_no_call Tok ("FOO") ("host.example.com") (.str ("10.0.0.1")) (by decide)⟩

lemma pyToUpper_of_mem (t : String) (h : t ∈ _RECORDS) : pyToUpper t = t := by
  simp only [_RECORDS, List.mem_cons, List.not_mem_nil, or_false] at h
  rcases h with rfl | rfl | rfl | rfl | rfl | rfl | rfl | rfl
  all_goals rfl

/-- C9 (amended): record-type membership is case-sensitive; for every
lowercase or mixed-case spelling of a supported type (every string that
upper-cases to a member of the supported set without being that uppercase
spelling itself), get_record always fails with the unsupported-record-type
error, create_record fails with that error whenever data survives the MX
pre-extraction, and neither ever performs a network call. -/
theorem record_type_case_sensitive (T : Request → Response) (t record : String) (data : JSON)
    (_h1 : pyToUpper t ∈ _RECORDS) (h2 : t ≠ pyToUpper t) :
    get_record T record t = (.error (.unsupportedRecordType t), []) ∧
    (mxReady data = true →
      create_record T t record data = (.error (.unsupportedRecordType t), [])) ∧
    (create_record T t record data).2 = [] := by
  have hn : t ∉ _RECORDS := fun hm => h2 (pyToUpper_of_mem t hm).symm
  exact unsupported_behavior T t record data hn

/-- C9 counterexample: with a lowercase spelling of a supported type and a
mapping lacking the MX keys, create_record raises the KeyError of the MX
pre-extraction rather than the unsupported-record-type error. -/
theorem lowercase_type_counterexample :
    create_record Tok ("host") ("myhost.example.com") (.obj [(("x"), .num 1)]) =
      (.error (.keyError ("mail_exchanger")), []) := rfl

/-- C9 witness: the amended theorem applied at the lowercase spelling host
and at the mixed-case spelling hOst. -/
theorem record_type_case_sensitive_witness :
    (pyToUpper ("host") ∈ _RECORDS ∧ ("host") ≠ pyToUpper ("host")) ∧
    (get_record Tok ("myhost.example.com") ("host") =
      (.error (.unsupportedRecordType ("host")), []) ∧
    (mxReady (.str ("10.0.0.1")) = true →
      create_record Tok ("host") ("myhost.example.com") (.str ("10.0.0.1")) =
        (.error (.unsupportedRecordType ("host")), [])) ∧
    (create_record Tok ("host") ("myhost.example.com") (.str ("10.0.0.1"))).2 = []) ∧
    (get_record Tok ("myhost.example.com") ("hOst") =
      (.error (.unsupportedRecordType ("hOst")), []) ∧
    (mxReady (.str ("10.0.0.1")) = true →
      create_record Tok ("hOst") ("myhost.example.com") (.str ("10.0.0.1")) =
        (.error (.unsupportedRecordType ("hOst")), [])) ∧
    (create_record Tok ("hOst") ("myhost.example.com") (.str ("10.0.0.1"))).2 = []) :=
  ⟨⟨by decide, by decide⟩,
   record_type_case_sensitive Tok ("host") ("myhost.example.com") (.str ("10.0.0.1"))
     (by decide) (by decide),
   record_type_case_sensitive Tok ("hOst") ("myhost.example.com") (.str ("10.0.0.1"))
     (by decide) (by decide)⟩

/-- C5: create_record with the MX type fails with the KeyError the spec names
InvalidArgumentError whenever data is not a mapping (the MX row is then
missing from _options) or lacks the mail_exchanger or preference key; when
data is a mapping with both keys, the POSTed payload holds name,
mail_exchanger and preference. -/
theorem create_record_mx_behavior (T : Request → Response) (name : String) (data : JSON) :
    ((∀ kvs, data ≠ .obj kvs) →
        create_record T ("MX") name data = (.error (.keyError ("MX")), [])) ∧
    (∀ kvs, data = .obj kvs → jlookup kvs ("mail_exchanger") = none →
        create_record T ("MX") name data = (.error (.keyError ("mail_exchanger")), [])) ∧
    (∀ kvs m, data = .obj kvs → jlookup kvs ("mail_exchanger") = some m →
        jlookup kvs ("preference") = none →
        create_record T ("MX") name data = (.error (.keyError ("preference")), [])) ∧
    (∀ kvs m pr, data = .obj kvs → jlookup kvs ("mail_exchanger") = some m →
        jlookup kvs ("preference") = some pr →
        create_record T ("MX") name data =
          (handleResponse ("record:mx")
            (T ⟨("record:mx"),
                some (.obj [(("name"), .str name), (("mail_exchanger"), m),
                            (("preference"), pr)]), ("POST")⟩),
           [⟨("record:mx"),
             some (.obj [(("name"), .str name), (("mail_exchanger"), m),
                         (("preference"), pr)]), ("POST")⟩])) := by
  refine ⟨?_, ?_, ?_, ?_⟩
  · intro h
    cases data with
    | obj kvs => exact absurd rfl (h kvs)
    | null => rfl
    | bool b => rfl
    | num n => rfl
    | str s => rfl
    | arr xs => rfl
  · intro kvs hdata hm
    subst hdata
    simp [create_record, mxOptions, pySubscr, hm]
  · intro kvs m hdata hm hp
    subst hdata
    simp [create_record, mxOptions, pySubscr, hm, hp]
  · intro kvs m pr hdata hm hp
    subst hdata
    have hmo : mxOptions name (.obj kvs) =
        .ok (baseOptions name (.obj kvs) ++
          [(("MX"), .obj [(("name"), .str name), (("mail_exchanger"), m),
                          (("preference"), pr)])]) := by
      simp [mxOptions, pySubscr, hm, hp]
    exact create_record_req T ("MX") name (.obj kvs) _ _ hmo (by decide) rfl

/-- C5 witness: the theorem applied to a non-mapping data value and to a
mapping with both keys. -/
theorem create_record_mx_behavior_witness :
    create_record Tok ("MX") ("myhost.example.com") (.str ("10.0.0.1")) =
      (.error (.keyError ("MX")), []) ∧
    create_record Tok ("MX") ("myhost.example.com")
        (.obj [(("mail_exchanger"), .str ("mx.example.com")), (("preference"), .num 20)]) =
      (handleResponse ("record:mx")
        (Tok ⟨("record:mx"),
              some (.obj [(("name"), .str ("myhost.example.com")),
                          (("mail_exchanger"), .str ("mx.example.com")),
                          (("preference"), .num 20)]), ("POST")⟩),
       [⟨("record:mx"),
         some (.obj [(("name"), .str ("myhost.example.com")),
                     (("mail_exchanger"), .str ("mx.example.com")),
                     (("preference"), .num 20)]), ("POST")⟩]) :=
  ⟨(create_record_mx_behavior Tok ("myhost.example.com") (.str ("10.0.0.1"))).1
     (fun _ h => JSON.noConfusion h),
   ((create_record_mx_behavior Tok ("myhost.example.com")
       (.obj [(("mail_exchanger"), .str ("mx.example.com")),
              (("preference"), .num 20)])).2.2.2)
     _ (.str ("mx.example.com")) (.num 20) rfl rfl rfl⟩

/-- C6: for every name and record type, when the get_record lookup returns an
empty result, delete_record raises the unable-to-delete error the spec names
RecordNotFoundError and issues no DELETE request (every issued request is the
GET lookup); when the lookup is non-empty, delete_record issues a DELETE
against the _ref token of the first returned object, used verbatim as the
path, with no request body. -/
theorem delete_record_behavior (T : Request → Response) (record rtype : String)
    (log : List Request) :
    (get_record T record rtype = (.ok (.arr []), log) →
        delete_record T record rtype = (.error (.recordNotFound record), log) ∧
        ∀ r ∈ log, r.method = ("GET")) ∧
    (∀ kvs rest refstr,
        get_record T record rtype = (.ok (.arr (JSON.obj kvs :: rest)), log) →
        jlookup kvs ("_ref") = some (.str refstr) →
        delete_record T record rtype =
          (handleResponse refstr (T ⟨refstr, none, ("DELETE")⟩),
           log ++ [⟨refstr, none, ("DELETE")⟩])) := by
  constructor
  · intro hget
    constructor
    · unfold delete_record
      rw [hget]
      rfl
    · intro r hr
      rw [get_record_log T record rtype _ log hget rfl] at hr
      rw [List.mem_singleton.mp hr]
  · intro kvs rest refstr hget href
    have hsub : pySubscr (JSON.obj kvs) ("_ref") = .ok (.str refstr) := by
      simp [pySubscr, href]
    unfold delete_record
    rw [hget]
    simp [truthy, pyIndex0, hsub, _request_DELETE]

/-- C6 witness: the theorem applied to a remote whose lookup answers one
record (DELETE issued against its _ref) and to one whose lookup is empty. -/
theorem delete_record_behavior_witness :
    (get_record Tok ("myhost.example.com") ("HOST") =
        (.ok (.arr []),
         [⟨("record:HOST"), some (.obj [(("name"), .str ("myhost.example.com"))]), ("GET")⟩]) ∧
     delete_record Tok ("myhost.example.com") ("HOST") =
        (.error (.recordNotFound ("myhost.example.com")),
         [⟨("record:HOST"), some (.obj [(("name"), .str ("myhost.example.com"))]), ("GET")⟩])) ∧
    (get_record Tdel ("myhost.example.com") ("HOST") =
        (.ok (.arr [.obj [(("_ref"), .str ("record:host/abc"))]]),
         [⟨("record:HOST"), some (.obj [(("name"), .str ("myhost.example.com"))]), ("GET")⟩]) ∧
     delete_record Tdel ("myhost.example.com") ("HOST") =
        (handleResponse ("record:host/abc")
           (Tdel ⟨("record:host/abc"), none, ("DELETE")⟩),
         [⟨("record:HOST"), some (.obj [(("name"), .str ("myhost.example.com"))]), ("GET")⟩] ++
           [⟨("record:host/abc"), none, ("DELETE")⟩])) :=
  ⟨⟨rfl,
    ((delete_record_behavior Tok ("myhost.example.com") ("HOST") _).1 rfl).1⟩,
   ⟨rfl,
    (delete_record_behavior Tdel ("myhost.example.com") ("HOST") _).2
      [(("_ref"), .str ("record:host/abc"))] [] ("record:host/abc") rfl rfl⟩⟩

/-- C7: for every cidr and count, when the get_network lookup returns no
results, get_next_ip raises the unable-to-retrieve error the spec names
NetworkNotFoundError; when the lookup is non-empty, it POSTs the num payload
to the first result's _ref token followed by the next_available_ip function
suffix. -/
theorem get_next_ip_behavior (T : Request → Response) (network : String) (n : Int)
    (log : List Request) :
    (get_network T network = (.ok (.arr []), log) →
        get_next_ip T network n = (.error (.networkNotFound network), log)) ∧
    (∀ kvs rest refstr,
        get_network T network = (.ok (.arr (JSON.obj kvs :: rest)), log) →
        jlookup kvs ("_ref") = some (.str refstr) →
        get_next_ip T network n =
          (handleResponse (refstr ++ ("?_function=next_available_ip"))
             (T ⟨refstr ++ ("?_function=next_available_ip"),
                 some (.obj [(("num"), .num n)]), ("POST")⟩),
           log ++ [⟨refstr ++ ("?_function=next_available_ip"),
                    some (.obj [(("num"), .num n)]), ("POST")⟩])) := by
  constructor
  · intro hget
    unfold get_next_ip
    rw [hget]
    rfl
  · intro kvs rest refstr hget href
    have hsub : pySubscr (JSON.obj kvs) ("_ref") = .ok (.str refstr) := by
      simp [pySubscr, href]
    unfold get_next_ip
    rw [hget]
    simp [pyIndex0, hsub, _request_POST]

/-- C7 witness: the theorem applied to a remote whose network lookup answers
one network and to one whose lookup is empty. -/
theorem get_next_ip_behavior_witness :
    (get_network Tok ("10.224.253.0/28") =
        (.ok (.arr []),
         [⟨("network"), some (.obj [(("network"), .str ("10.224.253.0/28"))]), ("GET")⟩]) ∧
     get_next_ip Tok ("10.224.253.0/28") 2 =
        (.error (.networkNotFound ("10.224.253.0/28")),
         [⟨("network"), some (.obj [(("network"), .str ("10.224.253.0/28"))]), ("GET")⟩])) ∧
    (get_network Tnet ("10.224.253.0/28") =
        (.ok (.arr [.obj [(("_ref"), .str ("network/xyz"))]]),
         [⟨("network"), some (.obj [(("network"), .str ("10.224.253.0/28"))]), ("GET")⟩]) ∧
     get_next_ip Tnet ("10.224.253.0/28") 2 =
        (handleResponse (("network/xyz") ++ ("?_function=next_available_ip"))
           (Tnet ⟨("network/xyz") ++ ("?_function=next_available_ip"),
                  some (.obj [(("num"), .num 2)]), ("POST")⟩),
         [⟨("network"), some (.obj [(("network"), .str ("10.224.253.0/28"))]), ("GET")⟩] ++
           [⟨("network/xyz") ++ ("?_function=next_available_ip"),
             some (.obj [(("num"), .num 2)]), ("POST")⟩])) :=
  ⟨⟨rfl,
    (get_next_ip_behavior Tok ("10.224.253.0/28") 2 _).1 rfl⟩,
   ⟨rfl,
    (get_next_ip_behavior Tnet ("10.224.253.0/28") 2 _).2
      [(("_ref"), .str ("network/xyz"))] [] ("network/xyz") rfl rfl⟩⟩

lemma Store.get_set_ne (σ : Store) (a b : Nat) (d : List (String × JSON)) (h : a ≠ b) :
    (σ.set b d).get a = σ.get a := by
  unfold Store.get Store.set
  induction σ.objs with
  | nil => rfl
  | cons e rest ih =>
      simp only [List.map_cons]
      by_cases hb : e.1 = b
      · rw [if_pos (by simp [hb])]
        rw [List.find?_cons_of_neg _ (by simp [Ne.symm h]),
            List.find?_cons_of_neg _ (by simp [hb, Ne.symm h])]
        exact ih
      · rw [if_neg (by simp [hb])]
        by_cases ha : e.1 = a
        · rw [List.find?_cons_of_pos _ (by simp [ha]),
              List.find?_cons_of_pos _ (by simp [ha])]
        · rw [List.find?_cons_of_neg _ (by simp [ha]),
              List.find?_cons_of_neg _ (by simp [ha])]
          exact ih

lemma Store.get_alloc_ne (σ : Store) (d : List (String × JSON)) (a : Nat) (h : a ≠ σ.next) :
    ((σ.alloc d).2).get a = σ.get a := by
  unfold Store.get Store.alloc
  rw [List.find?_cons_of_neg _ (by simp [Ne.symm h])]

lemma create_network_eq (T : Request → Response) (network : String) (grid : JSON)
    (optAddr : Nat) (σ : Store) (d : List (String × JSON))
    (hd : σ.get optAddr = some d) (hna : optAddr ≠ σ.next) :
    create_network T network grid optAddr σ =
      ((handleResponse ("network") (T ⟨("network"), some (cnData network grid d), ("POST")⟩),
        [⟨("network"), some (cnData network grid d), ("POST")⟩]),
       if d.isEmpty then σ
       else (σ.alloc gridDefaults).2.set σ.next (dictUpdate gridDefaults d)) := by
  unfold create_network
  rw [hd]
  by_cases he : d.isEmpty = true
  · have hd0 : d = [] := by
      cases d with
      | nil => rfl
      | cons x xs => simp [List.isEmpty] at he
    subst hd0
    simp [truthy, cnData, _request_POST]
  · have hne : truthy (.obj d) = true := by
      simp [truthy]
      cases d with
      | nil => simp at he
      | cons x xs => simp
    have hres : (((σ.alloc gridDefaults).2).set σ.next (dictUpdate gridDefaults d)).get optAddr
        = some d := by
      rw [Store.get_set_ne _ _ _ _ hna, Store.get_alloc_ne _ _ _ hna, hd]
    have hfst : (σ.alloc gridDefaults).1 = σ.next := rfl
    simp [hne, he, hres, hfst, cnData, _request_POST, truthy]

/-- C8: create_network POSTs to path network a payload that is exactly the network
entry, extended with an options entry holding the caller's options mapping
when options are given (truthy) and a members entry with the dhcpmember
struct and the grid member when a grid is given (truthy); with no grid and no
options the payload is exactly the network entry, as in the end-to-end
example. -/
theorem create_network_payload_shapes (T : Request → Response) (network : String)
    (grid : JSON) (optAddr : Nat) (σ : Store) (d : List (String × JSON))
    (hd : σ.get optAddr = some d) (hna : optAddr ≠ σ.next) :
    (create_network T network grid optAddr σ).1 =
      (handleResponse ("network") (T ⟨("network"), some (cnData network grid d), ("POST")⟩),
       [⟨("network"), some (cnData network grid d), ("POST")⟩]) ∧
    (d = [] → truthy grid = false →
        cnData network grid d = .obj [(("network"), .str network)]) ∧
    (d = [] → truthy grid = true →
        cnData network grid d =
          .obj [(("network"), .str network),
                (("members"), .arr [.obj [(("_struct"), .str ("dhcpmember")),
                                          (("ipv4addr"), grid)]])]) ∧
    (d ≠ [] → truthy grid = false →
        cnData network grid d =
          .obj [(("network"), .str network), (("options"), .arr [.obj d])]) ∧
    (d ≠ [] → truthy grid = true →
        cnData network grid d =
          .obj [(("network"), .str network),
                (("options"), .arr [.obj d]),
                (("members"), .arr [.obj [(("_struct"), .str ("dhcpmember")),
                                          (("ipv4addr"), grid)]])]) := by
  refine ⟨?_, ?_, ?_, ?_, ?_⟩
  · rw [create_network_eq T network grid optAddr σ d hd hna]
  · intro hd0 hg
    subst hd0
    simp [cnData, hg]
  · intro hd0 hg
    subst hd0
    simp [cnData, hg]
  · intro hd0 hg
    simp [cnData, hg, hd0]
  · intro hd0 hg
    simp [cnData, hg, hd0]

/-- C8 witness: the theorem applied to the end-to-end example, a network with
no grid member and an empty options dict: the payload is exactly the network
entry POSTed to path network. -/
theorem create_network_payload_shapes_witness :
    (create_network Tok ("10.224.254.0/28") (.bool false) 0 ⟨[(0, [])], 1⟩).1 =
      (handleResponse ("network")
         (Tok ⟨("network"), some (cnData ("10.224.254.0/28") (.bool false) []), ("POST")⟩),
       [⟨("network"), some (cnData ("10.224.254.0/28") (.bool false) []), ("POST")⟩]) ∧
    cnData ("10.224.254.0/28") (.bool false) [] =
      .obj [(("network"), .str ("10.224.254.0/28"))] :=
  ⟨(create_network_payload_shapes Tok ("10.224.254.0/28") (.bool false) 0
      ⟨[(0, [])], 1⟩ [] rfl (by decide)).1,
   (create_network_payload_shapes Tok ("10.224.254.0/28") (.bool false) 0
      ⟨[(0, [])], 1⟩ [] rfl (by decide)).2.1 rfl rfl⟩

/-- C10: the request payload of create_network carries the caller's options
mapping verbatim (exactly when options are truthy); the merged defaults dict
never replaces it in the payload; and the call mutates no pre-existing store
object, in particular neither the caller's options object nor the shared
default object (any object other than the freshly allocated opts). -/
theorem create_network_options_verbatim (T : Request → Response) (network : String)
    (grid : JSON) (optAddr : Nat) (σ : Store) (d : List (String × JSON))
    (hd : σ.get optAddr = some d) (hna : optAddr ≠ σ.next) :
    (∃ entries, (create_network T network grid optAddr σ).1.2 =
        [⟨("network"), some (.obj entries), ("POST")⟩] ∧
        jlookup entries ("options") =
          (if d.isEmpty then none else some (.arr [.obj d])) ∧
        (dictUpdate gridDefaults d ≠ d →
          jlookup entries ("options") ≠ some (.arr [.obj (dictUpdate gridDefaults d)]))) ∧
    (∀ a, a ≠ σ.next → ((create_network T network grid optAddr σ).2).get a = σ.get a) ∧
    ((create_network T network grid optAddr σ).2).get optAddr = some d := by
  have hcn := create_network_eq T network grid optAddr σ d hd hna
  refine ⟨?_, ?_, ?_⟩
  · by_cases hg : truthy grid = true
    · by_cases he : d.isEmpty = true
      · refine ⟨[(("network"), .str network),
                 (("members"), .arr [.obj [(("_struct"), .str ("dhcpmember")),
                                           (("ipv4addr"), grid)]])], ?_, ?_, ?_⟩
        · simp only [hcn]
          simp [cnData, hg, he]
        · rw [if_pos he]
          rfl
        · intro hmerge contra
          rw [show jlookup [(("network"), JSON.str network),
                 (("members"), JSON.arr [.obj [(("_struct"), JSON.str ("dhcpmember")),
                                               (("ipv4addr"), grid)]])] ("options") =
               none from rfl] at contra
          cases contra
      · refine ⟨[(("network"), .str network),
                 (("options"), .arr [.obj d]),
                 (("members"), .arr [.obj [(("_struct"), .str ("dhcpmember")),
                                           (("ipv4addr"), grid)]])], ?_, ?_, ?_⟩
        · simp only [hcn]
          simp [cnData, hg, he]
        · rw [if_neg (by simp [he])]
          rfl
        · intro hmerge contra
          simp [jlookup] at contra
          exact hmerge contra.symm
    · by_cases he : d.isEmpty = true
      · refine ⟨[(("network"), .str network)], ?_, ?_, ?_⟩
        · simp only [hcn]
          simp [cnData, hg, he]
        · rw [if_pos he]
          rfl
        · intro hmerge contra
          rw [show jlookup [(("network"), JSON.str network)] ("options") = none from rfl]
            at contra
          cases contra
      · refine ⟨[(("network"), .str network), (("options"), .arr [.obj d])], ?_, ?_, ?_⟩
        · simp only [hcn]
          simp [cnData, hg, he]
        · rw [if_neg (by simp [he])]
          rfl
        · intro hmerge contra
          simp [jlookup] at contra
          exact hmerge contra.symm
  · intro a hne'
    simp only [hcn]
    by_cases he : d.isEmpty = true
    · rw [if_pos he]
    · rw [if_neg he, Store.get_set_ne _ _ _ _ hne', Store.get_alloc_ne _ _ _ hne']
  · simp only [hcn]
    by_cases he : d.isEmpty = true
    · rw [if_pos he]
      exact hd
    · rw [if_neg he, Store.get_set_ne _ _ _ _ hna, Store.get_alloc_ne _ _ _ hna]
      exact hd

/-- C10 witness: the theorem applied with a concrete store holding a routers
options dict at address 0. -/
theorem create_network_options_verbatim_witness :
    (∃ entries,
        (create_network Tok ("10.224.254.0/28") (.bool false) 0
            ⟨[(0, [(("name"), .str ("routers"))])], 1⟩).1.2 =
          [⟨("network"), some (.obj entries), ("POST")⟩] ∧
        jlookup entries ("options") =
          (if ([(("name"), JSON.str ("routers"))] : List (String × JSON)).isEmpty then none
           else some (.arr [.obj [(("name"), .str ("routers"))]])) ∧
        (dictUpdate gridDefaults [(("name"), .str ("routers"))] ≠
            [(("name"), .str ("routers"))] →
          jlookup entries ("options") ≠
            some (.arr [.obj (dictUpdate gridDefaults [(("name"), .str ("routers"))])]))) ∧
    (∀ a, a ≠ (⟨[(0, [(("name"), .str ("routers"))])], 1⟩ : Store).next →
        ((create_network Tok ("10.224.254.0/28") (.bool false) 0
            ⟨[(0, [(("name"), .str ("routers"))])], 1⟩).2).get a =
          (⟨[(0, [(("name"), .str ("routers"))])], 1⟩ : Store).get a) ∧
    ((create_network Tok ("10.224.254.0/28") (.bool false) 0
        ⟨[(0, [(("name"), .str ("routers"))])], 1⟩).2).get 0 =
      some [(("name"), .str ("routers"))] :=
  create_network_options_verbatim Tok ("10.224.254.0/28") (.bool false) 0
    ⟨[(0, [(("name"), .str ("routers"))])], 1⟩ [(("name"), .str ("routers"))] rfl (by decide)
